import Mathlib

/-!
Verification development for the IndiaMacroTracker provider routing and
resilience layer.  The definitions below are a shallow embedding of the
TypeScript sources:

* `src/src/lib/providers/mock.ts` — synthetic baseline catalog and provider;
* `src/unnamed/part_005` — hybrid router, availability prober;
* `src/unnamed/part_003` — RBI adapter (`computeYoY`, `canFetchFromRBI`);
* `src/src/lib/providers/mospi.ts` — `canFetchFromMoSPI`;
* `src/unnamed/part_007` — `canFetchFromNSE`;
* `src/unnamed/part_010` — `getStatus`;
* `src/unnamed/part_011` — `TokenBucketRateLimiter`.

JavaScript numbers are modelled as exact rationals; where a computation can
produce a non-finite JS number (division by zero), the embedded value type is
`Option ℚ` with `none` standing for the non-finite result.  Code that throws
is modelled with `Except Unit`.
-/

namespace IndiaMacro

/-- Model of `parseFloat(x.toFixed(2))`: round to 2 decimal places, ties away
from zero toward plus infinity (the ECMAScript `toFixed` tie rule picks the
larger candidate integer). -/
def round2 (q : ℚ) : ℚ := (Int.floor (q * 100 + 1/2) : ℚ) / 100

/-- One point of a time series (`TimeSeriesData` in `src/src/lib/types`):
an ISO-ish date string and a numeric value. -/
structure TimeSeriesData where
  date : String
  value : ℚ
deriving DecidableEq, Repr

/-- Status classification result (`Status` in the types module). -/
inductive Status where
  | Heating
  | Cooling
  | Watch
  | Neutral
deriving DecidableEq, Repr

/-- `getStatus` from `src/unnamed/part_010` lines 11-16:
Heating if changePct > 0.3; Cooling if changePct < -0.3;
Watch if |changePct| > 0.15; else Neutral. -/
def getStatus (changePct : ℚ) : Status :=
  if changePct > 0.3 then Status.Heating
  else if changePct < -0.3 then Status.Cooling
  else if |changePct| > 0.15 then Status.Watch
  else Status.Neutral

/-! ### Synthetic baseline provider (`src/src/lib/providers/mock.ts`) -/

/-- Unrounded random-walk accumulator of `generateSeries`: the mutable `val`
after `j+1` iterations of `val += (Math.random() - 0.48) * volatility + trend`
(the loop updates `val` before pushing even the first point).  `rand j` models
the `j`-th draw of `Math.random()`. -/
def walkVal (rand : ℕ → ℚ) (base volatility trend : ℚ) : ℕ → ℚ
  | 0 => base + ((rand 0 - 0.48) * volatility + trend)
  | j + 1 => walkVal rand base volatility trend j + ((rand (j + 1) - 0.48) * volatility + trend)

/-- `generateSeries(base, volatility, count, trend)` from `mock.ts` lines
13-34.  The loop runs `i` from `count-1` down to `0`; the `j`-th pushed point
(`j = count-1-i`) is dated `i` months before now (modelled by the abstract
`dates` function) and its value is the unrounded accumulator rounded to
2 decimals. -/
def generateSeries (rand : ℕ → ℚ) (dates : ℕ → String)
    (base volatility : ℚ) (count : ℕ) (trend : ℚ) : List TimeSeriesData :=
  (List.range count).map fun j =>
    ⟨dates (count - 1 - j), round2 (walkVal rand base volatility trend j)⟩

/-- One entry of the static `MOCK_INDICATORS` catalog.  Display-only metadata
(name, category, unit, source, description, transformOptions, tags) is omitted:
the routed data operations under verification never read it. -/
structure MockIndicator where
  id : String
  frequency : String
  series : List TimeSeriesData
  forecast : Option ℚ
  nextRelease : Option String
deriving DecidableEq, Repr

/-- The static catalog `MOCK_INDICATORS` from `mock.ts` lines 39-514,
parametrised by the random draws (`rand k` is the stream for the `k`-th
`generateSeries` call, in source order) and by the month-labelling function.
Only the fields used by the data operations are retained; the `count`
arguments (24 / 12 / 8) and the repo-rate value override are as in the
source. -/
def MOCK_INDICATORS (rand : ℕ → ℕ → ℚ) (dates : ℕ → String) : List MockIndicator :=
  [⟨"cpi-headline", "Monthly", generateSeries (rand 0) dates 4.8 0.3 24 0, some 4.5, some ("2026-03-14")⟩,
   ⟨"cpi-core", "Monthly", generateSeries (rand 1) dates 4.2 0.2 24 0, some 4.1, some ("2026-03-14")⟩,
   ⟨"wpi", "Monthly", generateSeries (rand 2) dates 1.8 0.5 24 0, some 2.0, some ("2026-03-14")⟩,
   ⟨"cpi-food", "Monthly", generateSeries (rand 3) dates 6.2 0.8 24 0, some 5.8, some ("2026-03-14")⟩,
   ⟨"gdp-yoy", "Quarterly", generateSeries (rand 4) dates 6.7 0.4 12 0.05, some 6.5, some ("2026-05-31")⟩,
   ⟨"iip", "Monthly", generateSeries (rand 5) dates 4.5 1.2 24 0, some 4.8, some ("2026-03-12")⟩,
   ⟨"pmi-mfg", "Monthly", generateSeries (rand 6) dates 56.5 1.5 24 0, some 57.0, some ("2026-03-03")⟩,
   ⟨"pmi-services", "Monthly", generateSeries (rand 7) dates 58.2 1.2 24 0, some 58.5, some ("2026-03-05")⟩,
   ⟨"gst-collections", "Monthly", generateSeries (rand 8) dates 1.72 0.08 24 0.015, some 1.85, some ("2026-03-01")⟩,
   ⟨"unemployment", "Monthly", generateSeries (rand 9) dates 7.8 0.6 24 (-0.02), some 7.5, some ("2026-03-15")⟩,
   ⟨"lfpr", "Quarterly", generateSeries (rand 10) dates 41.2 0.5 12 0, none, some ("2026-06-30")⟩,
   ⟨"employment-rate", "Monthly", generateSeries (rand 11) dates 37.5 0.4 24 0, none, some ("2026-03-15")⟩,
   ⟨"repo-rate", "Bi-monthly",
     (generateSeries (rand 12) dates 6.5 0.0 12 0).mapIdx
       (fun i d => ⟨d.date, if i > 9 then 6.25 else 6.5⟩),
     some 6.0, some ("2026-04-09")⟩,
   ⟨"gsec-10y", "Daily", generateSeries (rand 13) dates 6.85 0.08 24 (-0.01), none, none⟩,
   ⟨"gsec-2y", "Daily", generateSeries (rand 14) dates 6.55 0.06 24 (-0.01), none, none⟩,
   ⟨"bank-credit", "Bi-weekly", generateSeries (rand 15) dates 15.5 0.8 24 (-0.1), none, some ("2026-03-07")⟩,
   ⟨"walr", "Monthly", generateSeries (rand 16) dates 9.2 0.1 24 (-0.02), none, some ("2026-03-28")⟩,
   ⟨"usdinr", "Daily", generateSeries (rand 17) dates 83.5 0.3 24 0.08, none, none⟩,
   ⟨"reer", "Monthly", generateSeries (rand 18) dates 104.5 0.8 24 0, none, some ("2026-03-15")⟩,
   ⟨"laf-liquidity", "Daily", generateSeries (rand 19) dates (-0.5) 0.4 24 0, none, none⟩,
   ⟨"m3-growth", "Bi-weekly", generateSeries (rand 20) dates 10.8 0.4 24 0, none, some ("2026-03-07")⟩,
   ⟨"deposits-growth", "Bi-weekly", generateSeries (rand 21) dates 12.5 0.5 24 0, none, some ("2026-03-07")⟩,
   ⟨"trade-balance", "Monthly", generateSeries (rand 22) dates (-22.5) 2.5 24 0, some (-21.0), some ("2026-03-15")⟩,
   ⟨"current-account", "Quarterly", generateSeries (rand 23) dates (-1.2) 0.3 12 0, some (-1.0), some ("2026-06-30")⟩,
   ⟨"fx-reserves", "Weekly", generateSeries (rand 24) dates 620 8 24 2, none, some ("2026-02-14")⟩,
   ⟨"nifty50", "Daily", generateSeries (rand 25) dates 22500 400 24 120, none, none⟩,
   ⟨"sensex", "Daily", generateSeries (rand 26) dates 74000 1200 24 400, none, none⟩,
   ⟨"nifty-bank", "Daily", generateSeries (rand 27) dates 47000 800 24 200, none, none⟩,
   ⟨"india-vix", "Daily", generateSeries (rand 28) dates 13.5 1.5 24 0, none, none⟩,
   ⟨"brent", "Daily", generateSeries (rand 29) dates 6800 300 24 20, none, none⟩,
   ⟨"gold-inr", "Daily", generateSeries (rand 30) dates 62000 1500 24 600, none, none⟩,
   ⟨"fiscal-deficit", "Monthly", generateSeries (rand 31) dates 55 5 12 0, none, some ("2026-03-31")⟩,
   ⟨"tax-collections", "Monthly", generateSeries (rand 32) dates 18.5 0.8 12 0.3, none, some ("2026-03-31")⟩,
   ⟨"debt-gdp", "Annual", generateSeries (rand 33) dates 82 0.5 8 (-0.3), none, some ("2026-07-31")⟩]

/-- `Observation` from the types module, as produced by `getLatest`. -/
structure Observation where
  indicatorId : String
  date : String
  value : ℚ
  prior : Option ℚ
  forecast : Option ℚ
  surprise : Option ℚ
deriving DecidableEq, Repr

/-- A point of a (possibly transformed) series as returned by `getSeries`.
`value = none` models a non-finite JS number (NaN / ±Infinity), which the
untransformed catalog data never contains but a division by zero inside a
transform can produce. -/
structure SeriesPoint where
  date : String
  value : Option ℚ
deriving DecidableEq, Repr

/-- Series transform selector (`Transform` in the types module). -/
inductive Transform where
  | Level
  | YoY
  | MoM
deriving DecidableEq, Repr

/-- `SeriesOptions` from the types module.  JS treats an empty-string
`from`/`to` as absent (falsy); absence is modelled by `none`. -/
structure SeriesOptions where
  fromDate : Option String
  toDate : Option String
  transform : Option Transform
deriving DecidableEq, Repr

/-- The percentage-change formula
`parseFloat((((cur - prev) / Math.abs(prev)) * 100).toFixed(2))` shared by the
mock transforms and `computeYoY`.  When `prev = 0` the JS division yields a
non-finite number, modelled as `none`. -/
def jsPct (cur prev : ℚ) : Option ℚ :=
  if prev = 0 then none
  else some (round2 ((cur - prev) / |prev| * 100))

/-- The YoY branch of `MockDataProvider.getSeries` (`mock.ts` lines 592-598):
`series.slice(12).map((d, i) => ...)` pairs `series[12+i]` with `series[i]`. -/
def mockYoYPoints (series : List TimeSeriesData) : List SeriesPoint :=
  ((series.drop 12).zip series).map fun p => ⟨p.1.date, jsPct p.1.value p.2.value⟩

/-- The MoM branch of `MockDataProvider.getSeries` (`mock.ts` lines 599-606):
`series.slice(1).map((d, i) => ...)` pairs `series[1+i]` with `series[i]`. -/
def mockMoMPoints (series : List TimeSeriesData) : List SeriesPoint :=
  ((series.drop 1).zip series).map fun p => ⟨p.1.date, jsPct p.1.value p.2.value⟩

/-- The transform dispatch of `MockDataProvider.getSeries`: YoY only when
more than 12 points remain, MoM only when more than 1 remains, otherwise the
series is returned untransformed (its plain finite values). -/
def applyTransform (t : Option Transform) (series : List TimeSeriesData) : List SeriesPoint :=
  if t = some Transform.YoY ∧ series.length > 12 then mockYoYPoints series
  else if t = some Transform.MoM ∧ series.length > 1 then mockMoMPoints series
  else series.map fun d => ⟨d.date, some d.value⟩

/-- `MockDataProvider.getLatest` (`mock.ts` lines 548-570).  An unknown id
throws (`Except.error`); reading `series[series.length - 1]` of an empty
series would also throw.  The JS `indicator.forecast ? ... : undefined`
surprise computation treats a forecast of `0` as absent (falsy). -/
def mockGetLatest (cat : List MockIndicator) (indicatorId : String) : Except Unit Observation :=
  match cat.find? (fun ind => ind.id = indicatorId) with
  | none => Except.error ()
  | some ind =>
    match ind.series.getLast? with
    | none => Except.error ()
    | some latest =>
      Except.ok
        { indicatorId := indicatorId
          date := latest.date
          value := latest.value
          prior :=
            if ind.series.length > 1 then
              (ind.series.get? (ind.series.length - 2)).map TimeSeriesData.value
            else none
          forecast := ind.forecast
          surprise :=
            match ind.forecast with
            | some f => if f = 0 then none else some (latest.value - f)
            | none => none }

/-- `MockDataProvider.getSeries` (`mock.ts` lines 572-609): find the catalog
entry (throwing on an unknown id), filter by the date range, then apply the
requested transform. -/
def mockGetSeries (cat : List MockIndicator) (indicatorId : String)
    (opts : SeriesOptions) : Except Unit (List SeriesPoint) :=
  match cat.find? (fun ind => ind.id = indicatorId) with
  | none => Except.error ()
  | some ind =>
    let s1 :=
      match opts.fromDate with
      | some f => ind.series.filter (fun d => f ≤ d.date)
      | none => ind.series
    let s2 :=
      match opts.toDate with
      | some t => s1.filter (fun d => d.date ≤ t)
      | none => s1
    Except.ok (applyTransform opts.transform s2)

/-- `computeYoY` from the RBI adapter (`src/unnamed/part_003` lines 243-261):
for each `i ≥ 12` with `series[i-12].value ≠ 0`, emit the rounded percentage
change; a zero year-ago value is skipped. -/
def computeYoY (series : List TimeSeriesData) : List TimeSeriesData :=
  ((series.drop 12).zip series).filterMap fun p =>
    if p.2.value ≠ 0 then
      some ⟨p.1.date, round2 ((p.1.value - p.2.value) / |p.2.value| * 100)⟩
    else none

/-! ### Capability predicates and priority routing (`src/unnamed/part_005`) -/

/-- The three live sources tracked by the hybrid provider (`sourceStatus`
keys). -/
inductive Src where
  | mospi
  | rbi
  | nse
deriving DecidableEq, Repr

/-- `LiveSource` from `part_005` line 29. -/
inductive LiveSource where
  | MoSPI
  | RBI
  | NSE
  | Mock
deriving DecidableEq, Repr

/-- Keys of `INDICATOR_MOSPI_MAP` (`src/src/lib/providers/mospi.ts`). -/
def MOSPI_IDS : List String :=
  ["cpi-headline-yoy", "cpi-core-yoy", "cpi-food-yoy", "wpi-yoy",
   "gdp-growth-yoy", "iip-growth-yoy", "unemployment-rate", "lfpr"]

/-- `canFetchFromMoSPI(indicatorId)`: `indicatorId in INDICATOR_MOSPI_MAP`. -/
def canFetchFromMoSPI (indicatorId : String) : Bool :=
  MOSPI_IDS.contains indicatorId

/-- `TIER1_LIVE_INDICATORS` (`src/unnamed/part_003` line 273). -/
def TIER1_LIVE_INDICATORS : List String := ["repo-rate", "usdinr"]

/-- `canFetchFromRBI(indicatorId)` (`part_003` lines 279-281). -/
def canFetchFromRBI (indicatorId : String) : Bool :=
  TIER1_LIVE_INDICATORS.contains indicatorId

/-- Keys of `MARKET_SYMBOL_MAP` (`src/unnamed/part_007`). -/
def MARKET_SYMBOL_IDS : List String :=
  ["nifty-50", "nifty-bank", "sensex", "india-vix"]

/-- `canFetchFromNSE(indicatorId)` (`part_007` lines 144-146). -/
def canFetchFromNSE (indicatorId : String) : Bool :=
  MARKET_SYMBOL_IDS.contains indicatorId

/-- The source-selection core of `selectProvider` (`part_005` lines 135-159),
with the awaited availability-check results abstracted into `av`: try MoSPI,
then RBI, then NSE — each only when its capability predicate matches and its
availability check returned true — else fall back to the mock provider
(`none`). -/
def selectSrc (av : Src → Bool) (indicatorId : String) : Option Src :=
  if canFetchFromMoSPI indicatorId && av Src.mospi then some Src.mospi
  else if canFetchFromRBI indicatorId && av Src.rbi then some Src.rbi
  else if canFetchFromNSE indicatorId && av Src.nse then some Src.nse
  else none

/-- The `source` name attached to each selected provider. -/
def srcName : Src → LiveSource
  | Src.mospi => LiveSource.MoSPI
  | Src.rbi => LiveSource.RBI
  | Src.nse => LiveSource.NSE

/-- The `source` field returned by `selectProvider`. -/
def selectProvider (av : Src → Bool) (indicatorId : String) : LiveSource :=
  (selectSrc av indicatorId).elim LiveSource.Mock srcName

/-- Behaviour of the three live adapters, universally quantified in the
theorems: each operation may return any result or throw. -/
structure LiveAdapters where
  latest : Src → String → Except Unit Observation
  series : Src → String → SeriesOptions → Except Unit (List SeriesPoint)

/-- `hybridProvider.getLatest` (`part_005` lines 170-188): select a provider,
try it, and on a thrown error fall back to the mock provider — unless the
mock provider itself was selected, in which case the error propagates. -/
def hybridGetLatest (cat : List MockIndicator) (A : LiveAdapters)
    (av : Src → Bool) (indicatorId : String) : Except Unit Observation :=
  match selectSrc av indicatorId with
  | none => mockGetLatest cat indicatorId
  | some src =>
    match A.latest src indicatorId with
    | Except.ok r => Except.ok r
    | Except.error _ => mockGetLatest cat indicatorId

/-- `hybridProvider.getSeries` (`part_005` lines 190-212): as `getLatest`,
and additionally a live provider that succeeds with a zero-length series
falls back to the mock series. -/
def hybridGetSeries (cat : List MockIndicator) (A : LiveAdapters)
    (av : Src → Bool) (indicatorId : String) (opts : SeriesOptions) :
    Except Unit (List SeriesPoint) :=
  match selectSrc av indicatorId with
  | none => mockGetSeries cat indicatorId opts
  | some src =>
    match A.series src indicatorId opts with
    | Except.ok s => if s.length = 0 then mockGetSeries cat indicatorId opts else Except.ok s
    | Except.error _ => mockGetSeries cat indicatorId opts

/-! ### Availability prober (`src/unnamed/part_005` lines 32-130)

The prober is asynchronous JS; its shared state is only touched inside
synchronous segments between awaits, so it is modelled as a state machine
whose atomic steps are those segments: `checkSourceAvailability` is the
synchronous prefix of the function of the same name (up to launching the
probe), and `completeCheck` is the synchronous completion handler that runs
when the probe's network call settles. -/

/-- `CHECK_INTERVAL = 5 * 60 * 1000` milliseconds (`part_005` line 37). -/
def CHECK_INTERVAL : ℤ := 5 * 60 * 1000

/-- One `sourceStatus` record: tri-state availability flag and last-check
timestamp (ms). -/
structure SourceRec where
  available : Option Bool
  lastCheck : ℤ
deriving DecidableEq, Repr

/-- Prober state: the `sourceStatus` records, the `pendingChecks` map
(modelled as a membership flag per source), and an instrumentation counter
of network probes launched per source.  `initialStarted` models
`initialCheckPromise !== null`. -/
structure ProberState where
  sourceStatus : Src → SourceRec
  pending : Src → Bool
  probes : Src → ℕ
  initialStarted : Bool

/-- What the synchronous prefix of a `checkSourceAvailability` call does for
its caller: return the cached flag, join the in-flight probe, or launch a
fresh probe (whose result the caller then awaits). -/
inductive CallResult where
  | cached (b : Bool)
  | joined
  | launched
deriving DecidableEq, Repr

/-- The state after `startOrJoin` launches a probe for `src`: the probe is
recorded as pending and the instrumentation counter is bumped. -/
def launchState (st : ProberState) (src : Src) : ProberState :=
  { st with
      pending := fun x => if x = src then true else st.pending x,
      probes := fun x => if x = src then st.probes x + 1 else st.probes x }

/-- The "no valid cache" tail of `checkSourceAvailability`: join an in-flight
check if one exists, otherwise start a new probe and record it in
`pendingChecks`. -/
def startOrJoin (st : ProberState) (src : Src) : CallResult × ProberState :=
  if st.pending src then (CallResult.joined, st)
  else (CallResult.launched, launchState st src)

/-- Synchronous prefix of `checkSourceAvailability(source)` at time `now`
(`part_005` lines 49-107): return the cached flag while it is non-null and
younger than `CHECK_INTERVAL`; otherwise join or launch a probe. -/
def checkSourceAvailability (st : ProberState) (src : Src) (now : ℤ) :
    CallResult × ProberState :=
  match (st.sourceStatus src).available with
  | some b =>
    if now - (st.sourceStatus src).lastCheck < CHECK_INTERVAL then (CallResult.cached b, st)
    else startOrJoin st src
  | none => startOrJoin st src

/-- Completion handler of a probe for `src` settling at time `t` with
availability verdict `ok` (`part_005` lines 86-102, success and error paths
alike): overwrite the record and remove the pending entry. -/
def completeCheck (st : ProberState) (src : Src) (ok : Bool) (t : ℤ) : ProberState :=
  { st with
      sourceStatus := fun x => if x = src then ⟨some ok, t⟩ else st.sourceStatus x,
      pending := fun x => if x = src then false else st.pending x }

/-- `ensureInitialCheck` (`part_005` lines 113-130): on first call, start the
three sources' checks synchronously (the `Promise.all` argument list is
evaluated before any await) and memoise; later calls only await the memoised
promise. -/
def ensureInitialCheck (st : ProberState) (now : ℤ) : ProberState :=
  if st.initialStarted then st
  else
    let st1 := (checkSourceAvailability st Src.mospi now).2
    let st2 := (checkSourceAvailability st1 Src.rbi now).2
    let st3 := (checkSourceAvailability st2 Src.nse now).2
    { st3 with initialStarted := true }

/-- Module-load state: every flag `null`, `lastCheck: 0`, nothing pending,
no probe launched, no initial check memoised. -/
def initProberState : ProberState :=
  { sourceStatus := fun _ => ⟨none, 0⟩
    pending := fun _ => false
    probes := fun _ => 0
    initialStarted := false }

/-- A burst of `checkSourceAvailability` calls for one source at the given
times, with no probe completion in between; returns each caller's outcome and
the final state. -/
def runChecks (st : ProberState) (src : Src) : List ℤ → List CallResult × ProberState
  | [] => ([], st)
  | t :: ts =>
    let c := checkSourceAvailability st src t
    let r := runChecks c.2 src ts
    (c.1 :: r.1, r.2)

/-! ### Token-bucket rate limiter (`src/unnamed/part_011` lines 88-197) -/

/-- One bucket: fractional token count and last-refill timestamp (ms). -/
structure Bucket where
  tokens : ℚ
  lastRefill : ℤ
deriving DecidableEq, Repr

/-- `TokenBucketRateLimiter` state.  `buckets` is the JS `Map` in insertion
order (head = first inserted, the key evicted when `size > maxBuckets`). -/
structure TokenBucketRateLimiter where
  maxTokens : ℚ
  refillRate : ℚ
  maxBuckets : ℕ
  buckets : List (String × Bucket)
deriving DecidableEq, Repr

/-- Result of `checkLimit`.  `limited none` models a `retryAfter` of
`Math.ceil(x / 0) = Infinity` when the refill rate is zero; `limited (some n)`
a finite hint of `n` seconds. -/
inductive CheckOutcome where
  | allowed
  | limited (retryAfter : Option ℤ)
deriving DecidableEq, Repr

/-- `this.buckets.get(key)`. -/
def lookupBucket (bs : List (String × Bucket)) (key : String) : Option Bucket :=
  (bs.find? (fun p => p.1 = key)).map Prod.snd

/-- `checkLimit(key)` observed at time `now` (`part_011` lines 125-166).
A missing bucket is created with `maxTokens - 1` tokens (the call consumes one
immediately) and the oldest bucket is evicted when the map grows past
`maxBuckets`.  An existing bucket is refilled by
`(now - lastRefill) / 1000 * refillRate` tokens, capped at `maxTokens`; the
call consumes one token when at least one is present, otherwise it is
rejected with a `Math.ceil((1 - tokens) / refillRate)` retry hint and the
refilled, unconsumed bucket is stored back. -/
def checkLimit (rl : TokenBucketRateLimiter) (key : String) (now : ℤ) :
    CheckOutcome × TokenBucketRateLimiter :=
  match lookupBucket rl.buckets key with
  | none =>
    let grown := rl.buckets ++ [(key, ⟨rl.maxTokens - 1, now⟩)]
    let kept := if grown.length > rl.maxBuckets then grown.tail else grown
    (CheckOutcome.allowed, { rl with buckets := kept })
  | some b =>
    let elapsedSeconds : ℚ := ((now - b.lastRefill : ℤ) : ℚ) / 1000
    let tokens := min rl.maxTokens (b.tokens + elapsedSeconds * rl.refillRate)
    if 1 ≤ tokens then
      (CheckOutcome.allowed,
       { rl with buckets := rl.buckets.map fun p => if p.1 = key then (p.1, ⟨tokens - 1, now⟩) else p })
    else
      (CheckOutcome.limited (if rl.refillRate = 0 then none else some ⌈(1 - tokens) / rl.refillRate⌉),
       { rl with buckets := rl.buckets.map fun p => if p.1 = key then (p.1, ⟨tokens, now⟩) else p })

/-- The refilled token count an existing bucket reaches during a `checkLimit`
call, before any consumption. -/
def refilledTokens (rl : TokenBucketRateLimiter) (b : Bucket) (now : ℤ) : ℚ :=
  min rl.maxTokens (b.tokens + ((now - b.lastRefill : ℤ) : ℚ) / 1000 * rl.refillRate)

/-- A sequence of `checkLimit` calls, each a `(key, timestamp)` pair. -/
def runLimiter (rl : TokenBucketRateLimiter) : List (String × ℤ) → TokenBucketRateLimiter
  | [] => rl
  | c :: cs => runLimiter (checkLimit rl c.1 c.2).2 cs

/-- The retry-after hint is at least one second; `none` is the JS `Infinity`
produced by a zero refill rate, which exceeds every finite bound. -/
def retryAtLeastOneSecond : Option ℤ → Prop
  | none => True
  | some n => 1 ≤ n

/-- The 13-point monthly series with values 1..13 used by the YoY/MoM
correctness claim. -/
def series13 : List TimeSeriesData :=
  [⟨"2023-01", 1⟩, ⟨"2023-02", 2⟩, ⟨"2023-03", 3⟩, ⟨"2023-04", 4⟩,
   ⟨"2023-05", 5⟩, ⟨"2023-06", 6⟩, ⟨"2023-07", 7⟩, ⟨"2023-08", 8⟩,
   ⟨"2023-09", 9⟩, ⟨"2023-10", 10⟩, ⟨"2023-11", 11⟩, ⟨"2023-12", 12⟩,
   ⟨"2024-01", 13⟩]

/-! ### Specification-side reference functions -/

/-- Capability predicate per source, as the routing claim phrases it. -/
def capable : Src → String → Bool
  | Src.mospi => canFetchFromMoSPI
  | Src.rbi => canFetchFromRBI
  | Src.nse => canFetchFromNSE

/-- Reference routing policy from the spec's words: the first source in the
fixed priority order MoSPI > RBI > NSE that is both capable for the id and
available; the mock source if there is none. -/
def routeSpec (av : Src → Bool) (indicatorId : String) : LiveSource :=
  (([Src.mospi, Src.rbi, Src.nse].filter fun s => capable s indicatorId && av s).head?).elim
    LiveSource.Mock srcName

/-- The per-indicator `(id, series length)` table the catalog actually
produces: the `count` arguments of its `generateSeries` calls. -/
def catalogIdLengths : List (String × ℕ) :=
  [("cpi-headline", 24), ("cpi-core", 24), ("wpi", 24), ("cpi-food", 24),
   ("gdp-yoy", 12), ("iip", 24), ("pmi-mfg", 24), ("pmi-services", 24),
   ("gst-collections", 24), ("unemployment", 24), ("lfpr", 12), ("employment-rate", 24),
   ("repo-rate", 12), ("gsec-10y", 24), ("gsec-2y", 24), ("bank-credit", 24),
   ("walr", 24), ("usdinr", 24), ("reer", 24), ("laf-liquidity", 24),
   ("m3-growth", 24), ("deposits-growth", 24), ("trade-balance", 24),
   ("current-account", 12), ("fx-reserves", 24), ("nifty50", 24), ("sensex", 24),
   ("nifty-bank", 24), ("india-vix", 24), ("brent", 24), ("gold-inr", 24),
   ("fiscal-deficit", 12), ("tax-collections", 12), ("debt-gdp", 8)]

/-- The sub-annual frequency names of the catalog. -/
def subAnnualFrequencies : List String :=
  ["Daily", "Weekly", "Bi-weekly", "Monthly", "Bi-monthly"]

/-- Invariant of the rate-limiter buckets at a point in time: token counts
within `[0, maxTokens]` and no refill timestamp in the future. -/
def BucketsInv (rl : TokenBucketRateLimiter) (t : ℤ) : Prop :=
  ∀ p ∈ rl.buckets, 0 ≤ p.2.tokens ∧ p.2.tokens ≤ rl.maxTokens ∧ p.2.lastRefill ≤ t

end IndiaMacro

namespace IndiaMacro

/-! ### Helper lemmas -/

theorem generateSeries_length (rand : ℕ → ℚ) (dates : ℕ → String)
    (base volatility : ℚ) (count : ℕ) (trend : ℚ) :
    (generateSeries rand dates base volatility count trend).length = count := by
  simp [generateSeries]

theorem MOCK_INDICATORS_id_lengths (rand : ℕ → ℕ → ℚ) (dates : ℕ → String) :
    (MOCK_INDICATORS rand dates).map (fun e => (e.id, e.series.length)) = catalogIdLengths := by
  simp [MOCK_INDICATORS, catalogIdLengths, generateSeries_length, List.length_mapIdx]

theorem mock_series_ne_nil (rand : ℕ → ℕ → ℚ) (dates : ℕ → String)
    (e : MockIndicator) (he : e ∈ MOCK_INDICATORS rand dates) : e.series ≠ [] := by
  have h2 : (e.id, e.series.length) ∈
      (MOCK_INDICATORS rand dates).map (fun x => (x.id, x.series.length)) :=
    List.mem_map_of_mem _ he
  rw [MOCK_INDICATORS_id_lengths] at h2
  have h3 : ∀ p ∈ catalogIdLengths, p.2 ≠ 0 := by decide
  intro hnil
  exact h3 _ h2 (by simp [hnil])

theorem find?_of_mem_id (cat : List MockIndicator) (indicatorId : String)
    (h : ∃ e ∈ cat, e.id = indicatorId) :
    ∃ e, cat.find? (fun ind => ind.id = indicatorId) = some e ∧ e ∈ cat := by
  obtain ⟨e, he, hid⟩ := h
  have hsome : (cat.find? (fun ind => ind.id = indicatorId)).isSome := by
    rw [List.find?_isSome]
    exact ⟨e, he, by simp [hid]⟩
  obtain ⟨w, hw⟩ := Option.isSome_iff_exists.mp hsome
  exact ⟨w, hw, List.mem_of_find?_eq_some hw⟩

theorem mockGetLatest_isOk (rand : ℕ → ℕ → ℚ) (dates : ℕ → String) (indicatorId : String)
    (h : ∃ e ∈ MOCK_INDICATORS rand dates, e.id = indicatorId) :
    (mockGetLatest (MOCK_INDICATORS rand dates) indicatorId).isOk = true := by
  obtain ⟨e, hfind, hmem⟩ := find?_of_mem_id _ _ h
  have hne : e.series ≠ [] := mock_series_ne_nil rand dates e hmem
  obtain ⟨latest, hlast⟩ :=
    Option.isSome_iff_exists.mp (List.getLast?_isSome.mpr hne)
  unfold mockGetLatest
  rw [hfind]
  simp [hlast, Except.isOk, Except.toBool]

theorem mockGetSeries_isOk (cat : List MockIndicator) (indicatorId : String)
    (opts : SeriesOptions) (h : ∃ e ∈ cat, e.id = indicatorId) :
    (mockGetSeries cat indicatorId opts).isOk = true := by
  obtain ⟨e, hfind, _⟩ := find?_of_mem_id _ _ h
  unfold mockGetSeries
  rw [hfind]
  rfl

/-- Claim C6: for every changePct, `getStatus` returns Heating iff
changePct > 0.3; otherwise Cooling iff changePct < -0.3; otherwise Watch iff
|changePct| > 0.15; otherwise Neutral.  In particular 0.3 yields Watch,
0.31 yields Heating, -0.31 yields Cooling and 0.10 yields Neutral. -/
theorem getStatus_classification : ∀ c : ℚ,
    (getStatus c = Status.Heating ↔ 0.3 < c) ∧
    (getStatus c = Status.Cooling ↔ c < -0.3) ∧
    (getStatus c = Status.Watch ↔ c ≤ 0.3 ∧ -0.3 ≤ c ∧ 0.15 < |c|) ∧
    (getStatus c = Status.Neutral ↔ c ≤ 0.3 ∧ -0.3 ≤ c ∧ |c| ≤ 0.15) ∧
    getStatus 0.3 = Status.Watch ∧
    getStatus 0.31 = Status.Heating ∧
    getStatus (-0.31) = Status.Cooling ∧
    getStatus 0.10 = Status.Neutral := by
  have key : ∀ c : ℚ,
      (getStatus c = Status.Heating ↔ 0.3 < c) ∧
      (getStatus c = Status.Cooling ↔ c < -0.3) ∧
      (getStatus c = Status.Watch ↔ c ≤ 0.3 ∧ -0.3 ≤ c ∧ 0.15 < |c|) ∧
      (getStatus c = Status.Neutral ↔ c ≤ 0.3 ∧ -0.3 ≤ c ∧ |c| ≤ 0.15) := by
    intro c
    refine ⟨?_, ?_, ?_, ?_⟩ <;>
      · unfold getStatus
        split_ifs with h1 h2 h3 <;>
          simp_all <;>
          first
            | linarith
            | (constructor <;> intro <;> linarith)
  intro c
  refine ⟨(key c).1, (key c).2.1, (key c).2.2.1, (key c).2.2.2, ?_, ?_, ?_, ?_⟩
  · refine (key 0.3).2.2.1.mpr ⟨by norm_num, by norm_num, ?_⟩
    rw [show |(0.3 : ℚ)| = 0.3 by rw [abs_of_pos] <;> norm_num]
    norm_num
  · exact (key 0.31).1.mpr (by norm_num)
  · exact (key (-0.31)).2.1.mpr (by norm_num)
  · refine (key 0.10).2.2.2.mpr ⟨by norm_num, by norm_num, ?_⟩
    rw [show |(0.10 : ℚ)| = 0.10 by rw [abs_of_pos] <;> norm_num]
    norm_num

/-- Witness for C6 at the concrete boundary input 0.31. -/
theorem getStatus_classification_witness : getStatus 0.31 = Status.Heating :=
  (getStatus_classification 0.31).2.2.2.2.2.1

/-- Claim C1: for every indicator id present in the static mock catalog, the
hybrid router's getLatest and getSeries return successfully, whatever the
live adapters do (including throwing on every operation) and whatever the
availability checks report. -/
theorem fallback_completeness (rand : ℕ → ℕ → ℚ) (dates : ℕ → String)
    (A : LiveAdapters) (av : Src → Bool) (indicatorId : String)
    (h : ∃ e ∈ MOCK_INDICATORS rand dates, e.id = indicatorId) :
    (hybridGetLatest (MOCK_INDICATORS rand dates) A av indicatorId).isOk = true ∧
    ∀ opts, (hybridGetSeries (MOCK_INDICATORS rand dates) A av indicatorId opts).isOk = true := by
  have hlat := mockGetLatest_isOk rand dates indicatorId h
  constructor
  · unfold hybridGetLatest
    cases selectSrc av indicatorId with
    | none => exact hlat
    | some src =>
      show (match A.latest src indicatorId with
            | Except.ok r => Except.ok r
            | Except.error _ => mockGetLatest (MOCK_INDICATORS rand dates) indicatorId).isOk = true
      cases A.latest src indicatorId with
      | ok r => rfl
      | error e => exact hlat
  · intro opts
    have hser := mockGetSeries_isOk (MOCK_INDICATORS rand dates) indicatorId opts h
    unfold hybridGetSeries
    cases selectSrc av indicatorId with
    | none => exact hser
    | some src =>
      show (match A.series src indicatorId opts with
            | Except.ok s =>
                if s.length = 0 then mockGetSeries (MOCK_INDICATORS rand dates) indicatorId opts
                else Except.ok s
            | Except.error _ => mockGetSeries (MOCK_INDICATORS rand dates) indicatorId opts).isOk = true
      cases A.series src indicatorId opts with
      | ok s =>
        by_cases hlen : s.length = 0
        · simpa [hlen] using hser
        · simp [hlen, Except.isOk, Except.toBool]
      | error e => exact hser

/-- Witness for C1 at a concrete catalog id with adapters that always throw
and all sources reported available. -/
theorem fallback_completeness_witness :
    (hybridGetLatest (MOCK_INDICATORS (fun _ _ => 1/2) (fun _ => ""))
        ⟨fun _ _ => Except.error (), fun _ _ _ => Except.error ()⟩
        (fun _ => true) ("cpi-headline")).isOk = true ∧
    (hybridGetSeries (MOCK_INDICATORS (fun _ _ => 1/2) (fun _ => ""))
        ⟨fun _ _ => Except.error (), fun _ _ _ => Except.error ()⟩
        (fun _ => true) ("cpi-headline") ⟨none, none, none⟩).isOk = true := by
  have h := fallback_completeness (fun _ _ => 1/2) (fun _ => "")
    ⟨fun _ _ => Except.error (), fun _ _ _ => Except.error ()⟩
    (fun _ => true) ("cpi-headline")
    ⟨⟨"cpi-headline", "Monthly", generateSeries ((fun _ _ => (1:ℚ)/2) 0) (fun _ => "") 4.8 0.3 24 0,
       some 4.5, some ("2026-03-14")⟩, by simp [MOCK_INDICATORS], rfl⟩
  exact ⟨h.1, h.2 ⟨none, none, none⟩⟩

/-- Claim C2: `selectProvider` realises the priority-and-capability policy:
it returns the first source in the fixed order MoSPI > RBI > NSE that is
capable for the id and available, and the mock source otherwise; a live
source is only ever selected when it is both capable and available, and when
everything is capable and available MoSPI wins. -/
theorem priority_capability_routing (av : Src → Bool) (indicatorId : String) :
    selectProvider av indicatorId = routeSpec av indicatorId ∧
    (∀ s : Src, selectProvider av indicatorId = srcName s →
       capable s indicatorId = true ∧ av s = true) ∧
    ((∀ s : Src, capable s indicatorId = true ∧ av s = true) →
       selectProvider av indicatorId = LiveSource.MoSPI) := by
  refine ⟨?_, ?_, ?_⟩
  · cases hm : canFetchFromMoSPI indicatorId <;>
      cases hr : canFetchFromRBI indicatorId <;>
        cases hn : canFetchFromNSE indicatorId <;>
          cases am : av Src.mospi <;>
            cases ar : av Src.rbi <;>
              cases an : av Src.nse <;>
                simp_all [selectProvider, selectSrc, routeSpec, capable, srcName]
  · intro s
    cases s <;>
      cases hm : canFetchFromMoSPI indicatorId <;>
        cases hr : canFetchFromRBI indicatorId <;>
          cases hn : canFetchFromNSE indicatorId <;>
            cases am : av Src.mospi <;>
              cases ar : av Src.rbi <;>
                cases an : av Src.nse <;>
                  simp_all [selectProvider, selectSrc, capable, srcName]
  · intro hall
    have hc : canFetchFromMoSPI indicatorId = true := (hall Src.mospi).1
    have ha : av Src.mospi = true := (hall Src.mospi).2
    simp [selectProvider, selectSrc, hc, ha, srcName]

/-- Witness for C2: with every source available, the id `repo-rate` (capable
only for RBI) routes to RBI, never to the available-but-incapable MoSPI. -/
theorem priority_capability_routing_witness :
    capable Src.rbi ("repo-rate") = true ∧ (fun _ : Src => true) Src.rbi = true :=
  (priority_capability_routing (fun _ => true) ("repo-rate")).2.1 Src.rbi (by
    simp [selectProvider, selectSrc, srcName, canFetchFromMoSPI, canFetchFromRBI,
      MOSPI_IDS, TIER1_LIVE_INDICATORS])

/-- Claim C3: when the router selects a live provider whose getSeries
succeeds with a zero-length array, the mock series is returned instead; a
non-empty live series is returned as-is, and whatever the mock provider
returns for itself (including an empty series) is passed through. -/
theorem empty_series_fallback (cat : List MockIndicator) (A : LiveAdapters)
    (av : Src → Bool) (indicatorId : String) (opts : SeriesOptions) :
    (∀ src, selectSrc av indicatorId = some src →
       A.series src indicatorId opts = Except.ok [] →
       hybridGetSeries cat A av indicatorId opts = mockGetSeries cat indicatorId opts) ∧
    (selectSrc av indicatorId = none →
       hybridGetSeries cat A av indicatorId opts = mockGetSeries cat indicatorId opts) ∧
    (∀ src s, selectSrc av indicatorId = some src →
       A.series src indicatorId opts = Except.ok s → s ≠ [] →
       hybridGetSeries cat A av indicatorId opts = Except.ok s) := by
  refine ⟨?_, ?_, ?_⟩
  · intro src hsel hser
    unfold hybridGetSeries
    rw [hsel]
    show (match A.series src indicatorId opts with
          | Except.ok s =>
              if s.length = 0 then mockGetSeries cat indicatorId opts else Except.ok s
          | Except.error _ => mockGetSeries cat indicatorId opts) =
        mockGetSeries cat indicatorId opts
    rw [hser]
    simp
  · intro hsel
    unfold hybridGetSeries
    rw [hsel]
  · intro src s hsel hser hne
    unfold hybridGetSeries
    rw [hsel]
    show (match A.series src indicatorId opts with
          | Except.ok s =>
              if s.length = 0 then mockGetSeries cat indicatorId opts else Except.ok s
          | Except.error _ => mockGetSeries cat indicatorId opts) =
        Except.ok s
    rw [hser]
    simp [List.length_eq_zero, hne]

/-- Witness for C3: a live RBI adapter returning an empty series for
`repo-rate` makes the router answer with the mock series. -/
theorem empty_series_fallback_witness :
    hybridGetSeries [] ⟨fun _ _ => Except.error (), fun _ _ _ => Except.ok []⟩
        (fun _ => true) ("repo-rate") ⟨none, none, none⟩ =
      mockGetSeries [] ("repo-rate") ⟨none, none, none⟩ :=
  (empty_series_fallback [] ⟨fun _ _ => Except.error (), fun _ _ _ => Except.ok []⟩
      (fun _ => true) ("repo-rate") ⟨none, none, none⟩).1 Src.rbi
    (by simp [selectSrc, canFetchFromMoSPI, canFetchFromRBI, MOSPI_IDS, TIER1_LIVE_INDICATORS])
    rfl

theorem runChecks_all_joined (src : Src) : ∀ (ts : List ℤ) (st : ProberState),
    (st.sourceStatus src).available = none → st.pending src = true →
    runChecks st src ts = (List.replicate ts.length CallResult.joined, st) := by
  intro ts
  induction ts with
  | nil => intro st h1 h2; rfl
  | cons t ts ih =>
    intro st h1 h2
    have hc : checkSourceAvailability st src t = (CallResult.joined, st) := by
      unfold checkSourceAvailability startOrJoin
      rw [h1, h2]
      simp
    simp [runChecks, hc, ih st h1 h2, List.replicate_succ]

/-- Claim C4: any number of concurrent availability checks for one source,
all issued before its probe completes, launch exactly one probe (the first
call launches, every later call joins); the first `ensureInitialCheck` call
launches all three sources' probes exactly once and memoises, and any later
call leaves the state untouched. -/
theorem probe_deduplication :
    (∀ (src : Src) (t : ℤ) (ts : List ℤ),
       (runChecks initProberState src (t :: ts)).1 =
         CallResult.launched :: List.replicate ts.length CallResult.joined ∧
       ((runChecks initProberState src (t :: ts)).2).probes src = 1) ∧
    (∀ now : ℤ,
       (∀ src : Src, (ensureInitialCheck initProberState now).probes src = 1) ∧
       (ensureInitialCheck initProberState now).initialStarted = true) ∧
    (∀ (st : ProberState) (now : ℤ), st.initialStarted = true →
       ensureInitialCheck st now = st) := by
  refine ⟨?_, ?_, ?_⟩
  · intro src t ts
    have hc : checkSourceAvailability initProberState src t =
        (CallResult.launched, launchState initProberState src) := rfl
    have h1 : ((launchState initProberState src).sourceStatus src).available = none := rfl
    have h2 : (launchState initProberState src).pending src = true := by
      simp [launchState]
    have hrest := runChecks_all_joined src ts _ h1 h2
    constructor
    · show (checkSourceAvailability initProberState src t).1 ::
          (runChecks (checkSourceAvailability initProberState src t).2 src ts).1 =
          CallResult.launched :: List.replicate ts.length CallResult.joined
      rw [hc]
      show CallResult.launched :: (runChecks (launchState initProberState src) src ts).1 = _
      rw [hrest]
    · show ((runChecks (checkSourceAvailability initProberState src t).2 src ts).2).probes src = 1
      rw [hc]
      show ((runChecks (launchState initProberState src) src ts).2).probes src = 1
      rw [hrest]
      simp [launchState, initProberState]
  · intro now
    constructor
    · intro src
      cases src <;> rfl
    · rfl
  · intro st now h
    unfold ensureInitialCheck
    rw [h]
    simp

/-- Witness for C4: three concurrent checks of NSE launch one probe, and a
second `ensureInitialCheck` call after the first changes nothing. -/
theorem probe_deduplication_witness :
    ((runChecks initProberState Src.nse [0, 1, 2]).2).probes Src.nse = 1 ∧
    ensureInitialCheck (ensureInitialCheck initProberState 0) 5 =
      ensureInitialCheck initProberState 0 :=
  ⟨(probe_deduplication.1 Src.nse 0 [1, 2]).2,
   probe_deduplication.2.2 _ 5 (probe_deduplication.2.1 0).2⟩

/-- Claim C5: while the cached flag is non-null and younger than the 5-minute
`CHECK_INTERVAL`, `checkSourceAvailability` returns it and leaves the state
untouched; once the flag is null or the record is stale, a call with no
probe in flight launches exactly one fresh probe, and the probe's completion
overwrites the record with the fresh flag and timestamp. -/
theorem ttl_respect (st : ProberState) (src : Src) (now : ℤ) :
    (∀ b last, st.sourceStatus src = ⟨some b, last⟩ → now - last < CHECK_INTERVAL →
       checkSourceAvailability st src now = (CallResult.cached b, st)) ∧
    (st.pending src = false →
     ((st.sourceStatus src).available = none ∨
        CHECK_INTERVAL ≤ now - (st.sourceStatus src).lastCheck) →
       (checkSourceAvailability st src now).1 = CallResult.launched ∧
       ((checkSourceAvailability st src now).2).probes src = st.probes src + 1 ∧
       ((checkSourceAvailability st src now).2).sourceStatus src = st.sourceStatus src ∧
       (∀ ok t,
          (completeCheck ((checkSourceAvailability st src now).2) src ok t).sourceStatus src =
            ⟨some ok, t⟩ ∧
          (completeCheck ((checkSourceAvailability st src now).2) src ok t).pending src =
            false)) := by
  constructor
  · intro b last h1 h2
    unfold checkSourceAvailability
    rw [h1]
    simp [h2]
  · intro hp hcase
    cases hav : (st.sourceStatus src).available with
    | none =>
      unfold checkSourceAvailability startOrJoin
      rw [hav, hp]
      simp [completeCheck, launchState]
    | some b =>
      have hstale : ¬ (now - (st.sourceStatus src).lastCheck < CHECK_INTERVAL) := by
        rcases hcase with h | h
        · rw [hav] at h; cases h
        · exact not_lt.mpr h
      unfold checkSourceAvailability startOrJoin
      rw [hav, hp]
      simp [hstale, completeCheck, launchState]

/-- Witness for C5: a fresh 0-timestamped `available` record answers from
cache at t = 1000 ms, and a null record launches a probe whose completion
overwrites the record. -/
theorem ttl_respect_witness :
    checkSourceAvailability
        { sourceStatus := fun _ => ⟨some true, 0⟩, pending := fun _ => false,
          probes := fun _ => 0, initialStarted := true } Src.mospi 1000 =
      (CallResult.cached true,
       { sourceStatus := fun _ => ⟨some true, 0⟩, pending := fun _ => false,
         probes := fun _ => 0, initialStarted := true }) ∧
    ((checkSourceAvailability initProberState Src.rbi 0).2).probes Src.rbi =
      initProberState.probes Src.rbi + 1 ∧
    (completeCheck ((checkSourceAvailability initProberState Src.rbi 0).2)
        Src.rbi false 7).sourceStatus Src.rbi = ⟨some false, 7⟩ :=
  ⟨(ttl_respect _ Src.mospi 1000).1 true 0 rfl (by decide),
   ((ttl_respect initProberState Src.rbi 0).2 rfl (Or.inl rfl)).2.1,
   (((ttl_respect initProberState Src.rbi 0).2 rfl (Or.inl rfl)).2.2.2 false 7).1⟩

/-- Claim C7 counterexample: on the series 1..13 the MoM transform does emit
12 points, but their values are not all 100.0 — consecutive percentage steps
shrink (100, 50, 33.33, ...). -/
theorem yoy_mom_series13_cex :
    (applyTransform (some Transform.MoM) series13).length = 12 ∧
    ¬ (∀ p ∈ applyTransform (some Transform.MoM) series13, p.value = some 100) := by
  have hne : ¬ (Transform.MoM = Transform.YoY) := by decide
  constructor
  · norm_num [applyTransform, mockMoMPoints, series13, hne]
  · intro hall
    have hmem : (⟨"2023-03", jsPct 3 2⟩ : SeriesPoint) ∈
        applyTransform (some Transform.MoM) series13 := by
      norm_num [applyTransform, mockMoMPoints, series13, hne]
    have h50 : jsPct 3 2 = some 50 := by norm_num [jsPct, round2]
    have := hall _ hmem
    rw [h50] at this
    norm_num at this

/-- Claim C7 as amended: on the 13-point series 1..13, YoY (lookback 12)
yields the single value 1200.0 (both in the mock transform and in the RBI
adapter's computeYoY), and MoM yields the 12 rounded percentage steps
100, 50, 33.33, 25, 20, 16.67, 14.29, 12.5, 11.11, 10, 9.09, 8.33. -/
theorem yoy_mom_series13_amended :
    (applyTransform (some Transform.YoY) series13).map SeriesPoint.value = [some 1200] ∧
    (computeYoY series13).map TimeSeriesData.value = [1200] ∧
    (applyTransform (some Transform.MoM) series13).map SeriesPoint.value =
      [some 100, some 50, some 33.33, some 25, some 20, some 16.67, some 14.29,
       some 12.5, some 11.11, some 10, some 9.09, some 8.33] := by
  have hne : ¬ (Transform.MoM = Transform.YoY) := by decide
  refine ⟨?_, ?_, ?_⟩ <;>
    norm_num [applyTransform, mockYoYPoints, mockMoMPoints, computeYoY, series13,
      jsPct, round2, hne, List.filterMap_cons, List.filterMap_nil]

/-- Claim C8 counterexample: the mock provider's MoM transform does not skip
a zero denominator — on the series [0, 1] it emits one point whose value is
the non-finite result of dividing by zero. -/
theorem transform_nonfinite_cex :
    (applyTransform (some Transform.MoM) [⟨"2024-01", 0⟩, ⟨"2024-02", 1⟩]).map
        SeriesPoint.value = [none] ∧
    ¬ (∀ p ∈ applyTransform (some Transform.MoM) [⟨"2024-01", 0⟩, ⟨"2024-02", 1⟩],
        p.value ≠ none) := by
  have hne : ¬ (Transform.MoM = Transform.YoY) := by decide
  constructor
  · norm_num [applyTransform, mockMoMPoints, jsPct, hne]
  · intro hall
    have hmem : (⟨"2024-02", jsPct 1 0⟩ : SeriesPoint) ∈
        applyTransform (some Transform.MoM) [⟨"2024-01", 0⟩, ⟨"2024-02", 1⟩] := by
      norm_num [applyTransform, mockMoMPoints, hne]
    have := hall _ hmem
    rw [show jsPct 1 0 = none by norm_num [jsPct]] at this
    exact this rfl

/-- Claim C8 as amended: the RBI adapter's `computeYoY` emits exactly the
points whose lookback denominator is non-zero (zero-denominator indices are
skipped, so every emitted value is finite); the mock provider's inline
YoY/MoM transforms instead emit a value for every index past the lookback,
non-finite (`none`) exactly when the denominator is zero. -/
theorem zero_denominator_handling (series : List TimeSeriesData) :
    computeYoY series =
      ((series.drop 12).zip series).filterMap
        (fun p => (jsPct p.1.value p.2.value).map fun v => TimeSeriesData.mk p.1.date v) ∧
    (series.length > 12 →
      (applyTransform (some Transform.YoY) series).map SeriesPoint.value =
        ((series.drop 12).zip series).map fun p => jsPct p.1.value p.2.value) ∧
    (series.length > 1 →
      (applyTransform (some Transform.MoM) series).map SeriesPoint.value =
        ((series.drop 1).zip series).map fun p => jsPct p.1.value p.2.value) := by
  refine ⟨?_, ?_, ?_⟩
  · unfold computeYoY
    apply List.filterMap_congr
    intro p _
    by_cases h : p.2.value = 0 <;> simp [jsPct, h]
  · intro hl
    simp [applyTransform, hl, mockYoYPoints, List.map_map, Function.comp]
  · intro hl
    simp [applyTransform, hl, mockMoMPoints, List.map_map, Function.comp]

/-- Witness for the amended C8 at the concrete series 1..13. -/
theorem zero_denominator_handling_witness :
    (applyTransform (some Transform.MoM) series13).map SeriesPoint.value =
      ((series13.drop 1).zip series13).map fun p => jsPct p.1.value p.2.value :=
  (zero_denominator_handling series13).2.2 (by norm_num [series13])

/-- Claim C9 counterexample: the catalog's fiscal-deficit entry is Monthly
(sub-annual) yet its generated series has 12 points, not 24. -/
theorem synthetic_series_length_cex :
    ¬ (∀ e ∈ MOCK_INDICATORS (fun _ _ => 1/2) (fun _ => ""),
        (e.frequency ∈ subAnnualFrequencies → e.series.length = 24) ∧
        ((e.frequency = "Quarterly" ∨ e.frequency = "Annual") → e.series.length = 12)) := by
  intro hall
  have h := hall
    ⟨"fiscal-deficit", "Monthly",
     generateSeries ((fun _ _ => (1:ℚ)/2) 31) (fun _ => "") 55 5 12 0, none,
     some ("2026-03-31")⟩
    (by simp [MOCK_INDICATORS])
  have h24 := h.1 (by simp [subAnnualFrequencies])
  rw [generateSeries_length] at h24
  norm_num at h24

/-- Claim C9 as amended: each catalog entry's series length is its
per-indicator `count` argument — 24 for most sub-annual indicators but 12
for gdp-yoy, lfpr, repo-rate, current-account, fiscal-deficit and
tax-collections, and 8 for the annual debt-gdp — and the repo-rate series
values are overwritten to ten 6.5 points followed by two 6.25 points. -/
theorem synthetic_series_lengths (rand : ℕ → ℕ → ℚ) (dates : ℕ → String) :
    (MOCK_INDICATORS rand dates).map (fun e => (e.id, e.series.length)) = catalogIdLengths ∧
    ((MOCK_INDICATORS rand dates).find? (fun e => e.id = "repo-rate")).map
        (fun e => e.series.map TimeSeriesData.value) =
      some [6.5, 6.5, 6.5, 6.5, 6.5, 6.5, 6.5, 6.5, 6.5, 6.5, 6.25, 6.25] := by
  constructor
  · exact MOCK_INDICATORS_id_lengths rand dates
  · have hfind : (MOCK_INDICATORS rand dates).find? (fun e => e.id = "repo-rate") =
        some ⟨"repo-rate", "Bi-monthly",
          (generateSeries (rand 12) dates 6.5 0.0 12 0).mapIdx
            (fun i d => ⟨d.date, if i > 9 then 6.25 else 6.5⟩),
          some 6.0, some ("2026-04-09")⟩ := by
      simp [MOCK_INDICATORS, List.find?_cons]
    rw [hfind]
    rfl

theorem lookupBucket_mem (bs : List (String × Bucket)) (key : String) (b : Bucket)
    (h : lookupBucket bs key = some b) : ∃ k, (k, b) ∈ bs := by
  unfold lookupBucket at h
  cases hf : bs.find? (fun p => p.1 = key) with
  | none => rw [hf] at h; cases h
  | some pair =>
    rw [hf] at h
    simp only [Option.map_some', Option.some.injEq] at h
    refine ⟨pair.1, ?_⟩
    rw [← h]
    simpa using List.mem_of_find?_eq_some hf

theorem lookupBucket_map_update (bs : List (String × Bucket)) (key : String) (nb : Bucket)
    (h : (lookupBucket bs key).isSome) :
    lookupBucket (bs.map fun p => if p.1 = key then (p.1, nb) else p) key = some nb := by
  induction bs with
  | nil => simp [lookupBucket] at h
  | cons q qs ih =>
    by_cases hq : q.1 = key
    · unfold lookupBucket
      rw [List.map_cons, if_pos hq, List.find?_cons_of_pos _ (by simpa using hq)]
      rfl
    · unfold lookupBucket
      rw [List.map_cons, if_neg hq, List.find?_cons_of_neg _ (by simpa using hq)]
      have h' : (lookupBucket qs key).isSome := by
        unfold lookupBucket at h
        rw [List.find?_cons_of_neg _ (by simpa using hq)] at h
        exact h
      exact ih h'

theorem checkLimit_fields (rl : TokenBucketRateLimiter) (key : String) (now : ℤ) :
    ((checkLimit rl key now).2).maxTokens = rl.maxTokens ∧
    ((checkLimit rl key now).2).refillRate = rl.refillRate := by
  unfold checkLimit
  cases hlook : lookupBucket rl.buckets key with
  | none => exact ⟨rfl, rfl⟩
  | some b =>
    dsimp only
    split_ifs <;> exact ⟨rfl, rfl⟩

theorem checkLimit_inv (rl : TokenBucketRateLimiter) (key : String) (now t : ℤ)
    (hmax : 1 ≤ rl.maxTokens) (hrate : 0 ≤ rl.refillRate) (ht : t ≤ now)
    (hinv : BucketsInv rl t) : BucketsInv ((checkLimit rl key now).2) now := by
  unfold checkLimit
  cases hlook : lookupBucket rl.buckets key with
  | none =>
    intro p hp
    dsimp only at hp
    have hp' : p ∈ rl.buckets ++ [(key, ⟨rl.maxTokens - 1, now⟩)] := by
      by_cases hlen :
          (rl.buckets ++ [(key, (⟨rl.maxTokens - 1, now⟩ : Bucket))]).length > rl.maxBuckets
      · rw [if_pos hlen] at hp
        exact List.mem_of_mem_tail hp
      · rwa [if_neg hlen] at hp
    rcases List.mem_append.mp hp' with hmem | hnew
    · have hb := hinv p hmem
      exact ⟨hb.1, hb.2.1, le_trans hb.2.2 ht⟩
    · have hp2 : p = (key, ⟨rl.maxTokens - 1, now⟩) := by simpa using hnew
      rw [hp2]
      dsimp only
      exact ⟨by linarith, by linarith, le_refl now⟩
  | some b =>
    obtain ⟨k0, hkb⟩ := lookupBucket_mem _ _ _ hlook
    have hb := hinv _ hkb
    have helapsed : (0 : ℚ) ≤ ((now - b.lastRefill : ℤ) : ℚ) / 1000 * rl.refillRate := by
      apply mul_nonneg _ hrate
      apply div_nonneg _ (by norm_num)
      exact_mod_cast sub_nonneg.mpr (le_trans hb.2.2 ht)
    have h0 : 0 ≤ min rl.maxTokens (b.tokens + ((now - b.lastRefill : ℤ) : ℚ) / 1000 * rl.refillRate) :=
      le_min (le_trans zero_le_one hmax) (add_nonneg hb.1 helapsed)
    have hle : min rl.maxTokens (b.tokens + ((now - b.lastRefill : ℤ) : ℚ) / 1000 * rl.refillRate) ≤
        rl.maxTokens := min_le_left _ _
    dsimp only
    split_ifs with hge hrf <;>
      [skip;
       (intro p hp
        dsimp only at hp
        obtain ⟨q, hq, hpq⟩ := List.mem_map.mp hp
        by_cases hqk : q.1 = key
        · rw [← hpq, if_pos hqk]
          dsimp only
          exact ⟨h0, hle, le_refl now⟩
        · rw [← hpq, if_neg hqk]
          have hb2 := hinv q hq
          exact ⟨hb2.1, hb2.2.1, le_trans hb2.2.2 ht⟩);
       (intro p hp
        dsimp only at hp
        obtain ⟨q, hq, hpq⟩ := List.mem_map.mp hp
        by_cases hqk : q.1 = key
        · rw [← hpq, if_pos hqk]
          dsimp only
          exact ⟨h0, hle, le_refl now⟩
        · rw [← hpq, if_neg hqk]
          have hb2 := hinv q hq
          exact ⟨hb2.1, hb2.2.1, le_trans hb2.2.2 ht⟩)]
    intro p hp
    dsimp only at hp
    obtain ⟨q, hq, hpq⟩ := List.mem_map.mp hp
    by_cases hqk : q.1 = key
    · rw [← hpq, if_pos hqk]
      dsimp only
      exact ⟨by linarith, by linarith, le_refl now⟩
    · rw [← hpq, if_neg hqk]
      have hb2 := hinv q hq
      exact ⟨hb2.1, hb2.2.1, le_trans hb2.2.2 ht⟩

theorem runLimiter_bounded : ∀ (calls : List (String × ℤ)) (rl : TokenBucketRateLimiter) (t : ℤ),
    1 ≤ rl.maxTokens → 0 ≤ rl.refillRate → BucketsInv rl t →
    List.Chain' (fun a b => a.2 ≤ b.2) calls →
    (∀ c ∈ calls.head?, t ≤ c.2) →
    ∀ p ∈ (runLimiter rl calls).buckets, 0 ≤ p.2.tokens ∧ p.2.tokens ≤ rl.maxTokens := by
  intro calls
  induction calls with
  | nil =>
    intro rl t hmax hrate hinv _ _ p hp
    exact ⟨(hinv p hp).1, (hinv p hp).2.1⟩
  | cons c cs ih =>
    intro rl t hmax hrate hinv hchain hhead
    have ht : t ≤ c.2 := hhead c (by simp)
    have hstep := checkLimit_inv rl c.1 c.2 t hmax hrate ht hinv
    have hfields := checkLimit_fields rl c.1 c.2
    show ∀ p ∈ (runLimiter (checkLimit rl c.1 c.2).2 cs).buckets, _
    intro p hp
    have hres := ih (checkLimit rl c.1 c.2).2 c.2
      (by rw [hfields.1]; exact hmax)
      (by rw [hfields.2]; exact hrate)
      hstep (List.chain'_cons'.mp hchain).2 (List.chain'_cons'.mp hchain).1 p hp
    rwa [hfields.1] at hres

/-- Claim C10: for a limiter built with maxTokens ≥ 1 and refillRate ≥ 0,
any sequence of `checkLimit` calls at non-decreasing timestamps keeps every
stored bucket's token count in [0, maxTokens]; a call is rejected only when
the refilled token count is below 1, and then it reports a retry hint of at
least one second (infinite when the refill rate is zero) and stores the
refilled bucket back without consuming a token. -/
theorem token_bucket_invariant :
    (∀ (maxT refill : ℚ) (maxB : ℕ) (calls : List (String × ℤ)),
       1 ≤ maxT → 0 ≤ refill →
       List.Chain' (fun a b => a.2 ≤ b.2) calls →
       ∀ p ∈ (runLimiter ⟨maxT, refill, maxB, []⟩ calls).buckets,
         0 ≤ p.2.tokens ∧ p.2.tokens ≤ maxT) ∧
    (∀ (rl : TokenBucketRateLimiter) (key : String) (now : ℤ) (r : Option ℤ),
       0 ≤ rl.refillRate →
       (checkLimit rl key now).1 = CheckOutcome.limited r →
       ∀ b, lookupBucket rl.buckets key = some b →
         refilledTokens rl b now < 1 ∧
         retryAtLeastOneSecond r ∧
         lookupBucket ((checkLimit rl key now).2).buckets key =
           some ⟨refilledTokens rl b now, now⟩) := by
  constructor
  · intro maxT refill maxB calls hmax hrate hchain
    refine runLimiter_bounded calls ⟨maxT, refill, maxB, []⟩
      (calls.head?.elim 0 (fun c => c.2)) hmax hrate
      (by intro p hp; cases hp) hchain ?_
    intro c hc
    cases hcs : calls with
    | nil => rw [hcs] at hc; cases hc
    | cons d ds =>
      rw [hcs] at hc
      have hcd : d = c := by simpa using hc
      rw [← hcd]
      exact le_refl d.2
  · intro rl key now r hrate hlim b hlook
    unfold checkLimit at hlim ⊢
    rw [hlook] at hlim ⊢
    dsimp only at hlim ⊢
    split_ifs at hlim ⊢ with hge hrf
    · replace hlim : CheckOutcome.limited none = CheckOutcome.limited r := hlim
      rw [CheckOutcome.limited.injEq] at hlim
      rw [← hlim]
      refine ⟨not_le.mp hge, ?_, ?_⟩
      · show True
        trivial
      · exact lookupBucket_map_update rl.buckets key _ (by rw [hlook]; rfl)
    · replace hlim : CheckOutcome.limited (some ⌈(1 - min rl.maxTokens
          (b.tokens + ((now - b.lastRefill : ℤ) : ℚ) / 1000 * rl.refillRate)) /
            rl.refillRate⌉) = CheckOutcome.limited r := hlim
      rw [CheckOutcome.limited.injEq] at hlim
      rw [← hlim]
      refine ⟨not_le.mp hge, ?_, ?_⟩
      · show (1 : ℤ) ≤ _
        have hpos : 0 < (1 - min rl.maxTokens
            (b.tokens + ((now - b.lastRefill : ℤ) : ℚ) / 1000 * rl.refillRate)) /
              rl.refillRate := by
          refine div_pos ?_ (lt_of_le_of_ne hrate (Ne.symm hrf))
          have := not_le.mp hge
          linarith
        have := Int.ceil_pos.mpr hpos
        omega
      · exact lookupBucket_map_update rl.buckets key _ (by rw [hlook]; rfl)

/-- Witness for C10: a limiter with one token and zero refill rejects the
second call with an unbounded retry hint, stores the refilled bucket back
unconsumed, and its bucket stays within [0, 1]. -/
theorem token_bucket_invariant_witness :
    (refilledTokens ⟨1, 0, 1000, [("k", ⟨0, 0⟩)]⟩ ⟨0, 0⟩ 5 < 1 ∧
     retryAtLeastOneSecond none ∧
     lookupBucket ((checkLimit ⟨1, 0, 1000, [("k", ⟨0, 0⟩)]⟩ "k" 5).2).buckets "k" =
       some ⟨refilledTokens ⟨1, 0, 1000, [("k", ⟨0, 0⟩)]⟩ ⟨0, 0⟩ 5, 5⟩) ∧
    (0 ≤ (Bucket.mk 0 5).tokens ∧ (Bucket.mk 0 5).tokens ≤ 1) :=
  ⟨token_bucket_invariant.2 ⟨1, 0, 1000, [("k", ⟨0, 0⟩)]⟩ "k" 5 none (by norm_num)
      (by norm_num [checkLimit, lookupBucket]) ⟨0, 0⟩ (by norm_num [lookupBucket]),
   token_bucket_invariant.1 1 0 1000 [("k", 0), ("k", 5)] (by norm_num) (by norm_num)
      (by norm_num [List.chain'_cons, List.chain'_singleton]) ("k", ⟨0, 5⟩)
      (by norm_num [runLimiter, checkLimit, lookupBucket])⟩

end IndiaMacro
